import Mathlib

/-!
Verification of `cfn-postgresql-user-provider` (`src/cfn_dbuser_provider.py`):
a CloudFormation custom-resource provider managing a PostgreSQL login role.

The Python module is shallowly embedded here.  Event payloads are JSON-like
dictionaries, modelled by `Val` / `Fields` (association lists of string keys).
Python exceptions are modelled by `PyErr`, fallible code by `Except PyErr`.
The external database (psycopg2 connection, `pg_catalog.pg_user`, DDL
execution) is modelled by an `Env` record supplying the set of existing role
names and the outcomes of `connect` / `cursor.execute`; every SQL statement a
handler issues is collected in an explicit statement log, so that theorems can
state that a handler did or did not issue DDL.
-/

namespace CfnDbUser

/-- A JSON-ish Python value as it appears in a CloudFormation event:
a string, an integer, or a nested dictionary. -/
inductive Val where
  | vStr : String → Val
  | vInt : Int → Val
  | vDict : List (String × Val) → Val

/-- A Python dictionary with string keys (the shape of the event payload and
of the `PostgresDBUser` dict subclass). -/
abbrev Fields := List (String × Val)

/-- `d[k]` as an `Option` (Python `d.get(k)`). -/
def dget (d : Fields) (k : String) : Option Val :=
  match d.find? (fun p => p.1 == k) with
  | some p => some p.2
  | none => none

/-- Python `k in d` for a dict. -/
def dmem (d : Fields) (k : String) : Bool :=
  (d.find? (fun p => p.1 == k)).isSome

/-- Python `d[k] = v`: replace the binding of `k` if present, else append. -/
def dset : Fields → String → Val → Fields
  | [], k, v => [(k, v)]
  | (k₁, v₁) :: rest, k, v =>
      if k₁ == k then (k, v) :: rest else (k₁, v₁) :: dset rest k v

/-- Python `del d[k]`. -/
def ddel (d : Fields) (k : String) : Fields :=
  d.filter (fun p => !(p.1 == k))

/-- Python `d.update(src)`: bindings of `src` override those of `d`. -/
def dmerge (d : Fields) (src : Fields) : Fields :=
  src.foldl (fun acc p => dset acc p.1 p.2) d

/-- The Python exceptions the module can raise.  `dbError` stands for the
psycopg2 exceptions raised by `connect` and `cursor.execute`. -/
inductive PyErr where
  | valueError : String → PyErr
  | typeError : String → PyErr
  | keyError : String → PyErr
  | nameError : String → PyErr
  | dbError : String → PyErr
deriving DecidableEq

/-- Python 2 `e.message` (the module formats error reasons with it). -/
def PyErr.message : PyErr → String
  | .valueError m => m
  | .typeError m => m
  | .keyError m => m
  | .nameError m => m
  | .dbError m => m

/-- Python `str(v)`.  For strings it is the string itself and for integers the
decimal rendering; both are all the source ever feeds to `str` on its
validated paths.  A dict renders as a brace-delimited repr; the only fact the
source depends on is that such a rendering is never `true`/`false`, which the
fixed brace-delimited token preserves. -/
def str_of : Val → String
  | .vStr s => s
  | .vInt n => toString n
  | .vDict _ => "\x7b...\x7d"

/-- Python `v[k]` where `v` should be a dict (`KeyError` when the key is
missing, `TypeError` when `v` is not a dict). -/
def pyGetItem (v : Val) (k : String) : Except PyErr Val :=
  match v with
  | .vDict d =>
      match dget d k with
      | some x => .ok x
      | none => .error (.keyError k)
  | .vStr _ => .error (.typeError "string indices must be integers")
  | .vInt _ => .error (.typeError "int object is not subscriptable")

/-- Python `k in v` for an arbitrary value: key test on dicts, substring test
on strings, `TypeError` on integers. -/
def pyContains (v : Val) (k : String) : Except PyErr Bool :=
  match v with
  | .vDict d => .ok (dmem d k)
  | .vStr s => .ok (decide ((s.splitOn k).length > 1))
  | .vInt _ => .error (.typeError "argument of type int is not iterable")

/-- Python `v[k] = x` on an arbitrary value (`TypeError` unless a dict). -/
def pySetItem (v : Val) (k : String) (x : Val) : Except PyErr Val :=
  match v with
  | .vDict d => .ok (.vDict (dset d k x))
  | .vStr _ => .error (.typeError "str object does not support item assignment")
  | .vInt _ => .error (.typeError "int object does not support item assignment")

/-- `PostgresDBUser.__init__`, first two statements:
`self.update(event); self.update(event[ResourceProperties]);
del self[ResourceProperties]`.  Missing `ResourceProperties` raises
`KeyError`; a non-dict one makes `dict.update` raise. -/
def mergeEvent (event : Fields) : Except PyErr Fields :=
  match dget event "ResourceProperties" with
  | none => .error (.keyError "ResourceProperties")
  | some (.vDict props) => .ok (ddel (dmerge event props) "ResourceProperties")
  | some _ => .error (.typeError "cannot convert dictionary update sequence")

/-- `PostgresDBUser.add_defaults`: insert `Port = 5432` into `Database` when
the key is absent (a non-dict `Database` value makes the item assignment
raise), then default `WithDatabase` to the string `true`. -/
def add_defaults (s : Fields) : Except PyErr Fields := do
  let s₁ ←
    match dget s "Database" with
    | some dbv => do
        let hasPort ← pyContains dbv "Port"
        if hasPort then
          pure s
        else do
          let dbv₁ ← pySetItem dbv "Port" (.vInt 5432)
          pure (dset s "Database" dbv₁)
    | none => pure s
  if dmem s₁ "WithDatabase" then
    pure s₁
  else
    pure (dset s₁ "WithDatabase" (.vStr "true"))

/-- Python `str.lower` on the ASCII range (the module only lowers the
`WithDatabase` rendering, compared against `true`/`false`). -/
def lowerChar (c : Char) : Char :=
  if 65 ≤ c.toNat ∧ c.toNat ≤ 90 then Char.ofNat (c.toNat + 32) else c

/-- Python `s.lower()`. -/
def pyLower (s : String) : String :=
  ⟨s.data.map lowerChar⟩

/-- `check_valid`, lines 55-58: when `WithDatabase` is present, `str(value)`
lowered must be `true` or `false`, else `ValueError` naming the (lowered)
offending value. -/
def wd_check (s : Fields) : Except PyErr Unit :=
  match dget s "WithDatabase" with
  | some wv =>
      let v := pyLower (str_of wv)
      if !(v == "true" || v == "false") then
        .error (.valueError ("WithDatabase property \"" ++ v ++ "\" is not a boolean"))
      else
        .ok ()
  | none => .ok ()

/-- `check_valid`, lines 60-77: the `Database` object and its sub-fields, in
source order (presence and dict type, `Host`, `Port` presence, `Port` type,
`User`, `Password`, `DBName`).  The port type check
`type(db[Port]) == int or str.isdigit()` short-circuits on integer ports; for
any non-integer port the second operand `str.isdigit()` is evaluated, and
calling the unbound method with no instance raises `TypeError`, so the
`Port is required to be an integer in Database` `ValueError` never runs. -/
def db_check (s : Fields) : Except PyErr Unit :=
  match dget s "Database" with
  | some (.vDict db) =>
      if !dmem db "Host" then
        .error (.valueError "Host is required in Database")
      else if !dmem db "Port" then
        .error (.valueError "Port is required in Database")
      else
        match dget db "Port" with
        | some (.vInt _) =>
            if !dmem db "User" then
              .error (.valueError "User is required in Database")
            else if !dmem db "Password" then
              .error (.valueError "Password is required in Database")
            else if !dmem db "DBName" then
              .error (.valueError "DBName is required in Database")
            else
              .ok ()
        | _ =>
            .error (.typeError "descriptor isdigit of str object needs an argument")
  | some _ => .error (.valueError "Database property is required and must be an object")
  | none => .error (.valueError "Database property is required and must be an object")

/-- `PostgresDBUser.check_valid`: required-field checks in the fixed source
order — `User`, `Password`, the `WithDatabase` boolean shape, then the
`Database` block. -/
def check_valid (s : Fields) : Except PyErr Unit :=
  if !dmem s "User" then
    .error (.valueError "User property is required")
  else if !dmem s "Password" then
    .error (.valueError "Password property is required")
  else
    match wd_check s with
    | .error e => .error e
    | .ok () => db_check s

/-- `PostgresDBUser.__init__`: merge the event with its resource properties,
apply defaults, validate.  Returns the resulting dict (the state of `self`)
or the first exception raised. -/
def parse (event : Fields) : Except PyErr Fields := do
  let s ← mergeEvent event
  let s ← add_defaults s
  check_valid s
  pure s

/-- Property `user`: `self[User]`. -/
def user (s : Fields) : Except PyErr Val :=
  match dget s "User" with
  | some v => .ok v
  | none => .error (.keyError "User")

/-- Property `password`: `self[Password]`. -/
def password (s : Fields) : Except PyErr Val :=
  match dget s "Password" with
  | some v => .ok v
  | none => .error (.keyError "Password")

/-- Property `host`: `self[Database][Host]`. -/
def host (s : Fields) : Except PyErr Val := do
  let db ←
    match dget s "Database" with
    | some v => Except.ok v
    | none => Except.error (PyErr.keyError "Database")
  pyGetItem db "Host"

/-- Property `port`: `self[Database][Port]`. -/
def port (s : Fields) : Except PyErr Val := do
  let db ←
    match dget s "Database" with
    | some v => Except.ok v
    | none => Except.error (PyErr.keyError "Database")
  pyGetItem db "Port"

/-- Property `with_database`: `self[WithDatabase] == "true"` — a
case-sensitive comparison with the exact lowercase string, raising `KeyError`
when the key is absent (Python `==` against a non-string value is `False`). -/
def with_database (s : Fields) : Except PyErr Bool :=
  match dget s "WithDatabase" with
  | some (.vStr v) => .ok (v == "true")
  | some _ => .ok false
  | none => .error (.keyError "WithDatabase")

/-- Property `url`: the physical identity minted on successful Create.
`postgresql:host:port:user?user=user` with a database, else
`postgresql://host:port?user=user`; fields are rendered with `%s`
(i.e. `str`). -/
def url (s : Fields) : Except PyErr String := do
  let wd ← with_database s
  if wd then do
    let h ← host s
    let p ← port s
    let u ← user s
    pure ("postgresql:" ++ str_of h ++ ":" ++ str_of p ++ ":" ++ str_of u ++ "?user=" ++ str_of u)
  else do
    let h ← host s
    let p ← port s
    let u ← user s
    pure ("postgresql://" ++ str_of h ++ ":" ++ str_of p ++ "?user=" ++ str_of u)

/-- The orchestrator response envelope built by `Response.__init__`
(`Status`, `Reason`, `PhysicalResourceId`, `Data`, the latter defaulting to
the empty dict). -/
structure Response where
  Status : String
  Reason : String
  PhysicalResourceId : Val
  Data : Fields

/-- A SQL statement issued through `cursor.execute`: the catalog lookup of
`exists`, the `CREATE ROLE ... LOGIN ENCRYPTED PASSWORD ...` of `create`,
or the `DROP ROLE ...` of `drop` (role names substituted via `AsIs`). -/
inductive Stmt where
  | selectUser : String → Stmt
  | createRole : String → String → Stmt
  | dropRole : String → Stmt
deriving DecidableEq

/-- The external database world: the outcome `psycopg2.connect` would have
(`some m` = raise with message `m`), the outcome `cursor.execute` would have,
and the set of role names present in `pg_catalog.pg_user`. -/
structure Env where
  connectErr : Option String
  queryErr : Option String
  users : List String

/-- What running one handler did: the returned value (`Except.error` means an
exception escaped the handler uncaught), the SQL statements issued, and the
roles existing afterwards. -/
structure HResult where
  resp : Except PyErr Response
  stmts : List Stmt
  usersAfter : List String

/-- `PostgresDBUser.connect`: wraps any psycopg2 connection error in
`ValueError("Failed to connect, " + e.message)`. -/
def connectOutcome (env : Env) : Except PyErr Unit :=
  match env.connectErr with
  | some m => .error (.valueError ("Failed to connect, " ++ m))
  | none => .ok ()

/-- The `create` handler (`@handler.create`).  The `try` block constructs and
validates the descriptor, connects, checks existence and either creates the
role or returns the duplicate-user failure; any exception is converted to a
FAILED response with the fixed sentinel id `could-not-create`.  The final
SUCCESS response with `user.url` is built outside the `try`. -/
def runCreate (env : Env) (event : Fields) : HResult :=
  match parse event with
  | .error e =>
      ⟨.ok ⟨"FAILED", "Failed to create user, " ++ e.message, .vStr "could-not-create", []⟩,
        [], env.users⟩
  | .ok s =>
    match connectOutcome env with
    | .error e =>
        ⟨.ok ⟨"FAILED", "Failed to create user, " ++ e.message, .vStr "could-not-create", []⟩,
          [], env.users⟩
    | .ok () =>
      match user s with
      | .error e =>
          ⟨.ok ⟨"FAILED", "Failed to create user, " ++ e.message, .vStr "could-not-create", []⟩,
            [], env.users⟩
      | .ok uv =>
        let uname := str_of uv
        match env.queryErr with
        | some m =>
            ⟨.ok ⟨"FAILED", "Failed to create user, " ++ m, .vStr "could-not-create", []⟩,
              [], env.users⟩
        | none =>
          if env.users.contains uname then
            ⟨.ok ⟨"FAILED", "User " ++ uname ++ " already exists", .vStr "could-not-create", []⟩,
              [.selectUser uname], env.users⟩
          else
            match password s with
            | .error e =>
                ⟨.ok ⟨"FAILED", "Failed to create user, " ++ e.message, .vStr "could-not-create", []⟩,
                  [.selectUser uname], env.users⟩
            | .ok pv =>
              let log := [.selectUser uname, .createRole uname (str_of pv)]
              let usersAfter := env.users ++ [uname]
              match url s with
              | .error e => ⟨.error e, log, usersAfter⟩
              | .ok u => ⟨.ok ⟨"SUCCESS", "", .vStr u, []⟩, log, usersAfter⟩

/-- The `update` handler (`@handler.update`):
`return Response("SUCCESS", reason, event["PhysicalResourceId"])`.
The name `reason` is bound nowhere in the module, so evaluating the call
arguments raises `NameError` before any response is built, for every event. -/
def runUpdate (_event : Fields) : Except PyErr Response :=
  .error (.nameError "global name reason is not defined")

/-- Build the `delete` handler result whose `try` block raised `e`:
`Response("FAILED", e.message, event["PhysicalResourceId"])` — looking up the
physical id can itself raise `KeyError`, which then escapes the handler. -/
def deleteFail (event : Fields) (e : PyErr) (log : List Stmt) (us : List String) : HResult :=
  match dget event "PhysicalResourceId" with
  | some p => ⟨.ok ⟨"FAILED", e.message, p, []⟩, log, us⟩
  | none => ⟨.error (.keyError "PhysicalResourceId"), log, us⟩

/-- Build the `delete` handler result whose `try` block finished:
`Response("SUCCESS", "", event["PhysicalResourceId"])`. -/
def deleteOk (event : Fields) (log : List Stmt) (us : List String) : HResult :=
  match dget event "PhysicalResourceId" with
  | some p => ⟨.ok ⟨"SUCCESS", "", p, []⟩, log, us⟩
  | none => ⟨.error (.keyError "PhysicalResourceId"), log, us⟩

/-- The `delete` handler (`@handler.delete`).  The `try` block constructs and
validates the descriptor, connects, checks existence and drops the role only
when it exists; any exception is converted to a FAILED response carrying the
event's incoming physical id. -/
def runDelete (env : Env) (event : Fields) : HResult :=
  match parse event with
  | .error e => deleteFail event e [] env.users
  | .ok s =>
    match connectOutcome env with
    | .error e => deleteFail event e [] env.users
    | .ok () =>
      match user s with
      | .error e => deleteFail event e [] env.users
      | .ok uv =>
        let uname := str_of uv
        match env.queryErr with
        | some m => deleteFail event (.dbError m) [] env.users
        | none =>
          if env.users.contains uname then
            deleteOk event [.selectUser uname, .dropRole uname]
              (env.users.filter (fun n => !(n == uname)))
          else
            deleteOk event [.selectUser uname] env.users

/-- The `WithDatabase` shape accepted by `check_valid`: absent (it will be
defaulted), or a value whose lowered string rendering is `true` or `false`. -/
def wdShapeOk (s : Fields) : Bool :=
  match dget s "WithDatabase" with
  | some wv => (pyLower (str_of wv) == "true" || pyLower (str_of wv) == "false")
  | none => true

/-- The four-tuple the minted identity is built from:
`(with_database, str(host), str(port), str(user))`. -/
def identFields (s : Fields) : Except PyErr (Bool × String × String × String) := do
  let wd ← with_database s
  let h ← host s
  let p ← port s
  let u ← user s
  pure (wd, str_of h, str_of p, str_of u)

/-- The identity string as a function of the four-tuple, following the two
format strings of `PostgresDBUser.url`. -/
def fmtUrl : Bool × String × String × String → String
  | (true, h, p, u) => "postgresql:" ++ h ++ ":" ++ p ++ ":" ++ u ++ "?user=" ++ u
  | (false, h, p, u) => "postgresql://" ++ h ++ ":" ++ p ++ "?user=" ++ u

/-- The identity four-tuple of a whole event: validate, then project. -/
def identOfEvent (event : Fields) : Except PyErr (Bool × String × String × String) := do
  let s ← parse event
  identFields s

/-- A well-formed Create event (the §8 scenario: `Port` and `WithDatabase`
use their defaults). -/
def evBase : Fields :=
  [("RequestType", .vStr "Create"), ("LogicalResourceId", .vStr "MyUser"),
   ("ResourceProperties", .vDict
     [("User", .vStr "app"), ("Password", .vStr "x"),
      ("Database", .vDict
        [("Host", .vStr "db1"), ("User", .vStr "admin"),
         ("Password", .vStr "y"), ("DBName", .vStr "appdb")])])]

/-- A well-formed Delete event carrying physical id `X`. -/
def evDelete : Fields :=
  [("RequestType", .vStr "Delete"), ("PhysicalResourceId", .vStr "X"),
   ("ResourceProperties", .vDict
     [("User", .vStr "app"), ("Password", .vStr "x"),
      ("Database", .vDict
        [("Host", .vStr "db1"), ("User", .vStr "admin"),
         ("Password", .vStr "y"), ("DBName", .vStr "appdb")])])]

/-- An Update event carrying physical id `X`. -/
def evUpdate : Fields :=
  [("RequestType", .vStr "Update"), ("PhysicalResourceId", .vStr "X"),
   ("ResourceProperties", .vDict
     [("User", .vStr "app"), ("Password", .vStr "x"),
      ("Database", .vDict
        [("Host", .vStr "db1"), ("Port", .vInt 5432), ("User", .vStr "admin"),
         ("Password", .vStr "y"), ("DBName", .vStr "appdb")])])]

/-- An event whose `Database.Port` is the numeric string `"5432"` rather
than an integer. -/
def evStrPort : Fields :=
  [("RequestType", .vStr "Create"),
   ("ResourceProperties", .vDict
     [("User", .vStr "app"), ("Password", .vStr "x"),
      ("Database", .vDict
        [("Host", .vStr "db1"), ("Port", .vStr "5432"), ("User", .vStr "admin"),
         ("Password", .vStr "y"), ("DBName", .vStr "appdb")])])]

/-- First member of an identity collision: `WithDatabase = true`,
host `//h`, port `5`, user `7`. -/
def evColl1 : Fields :=
  [("RequestType", .vStr "Create"),
   ("ResourceProperties", .vDict
     [("User", .vStr "7"), ("Password", .vStr "x"), ("WithDatabase", .vStr "true"),
      ("Database", .vDict
        [("Host", .vStr "//h"), ("Port", .vInt 5), ("User", .vStr "admin"),
         ("Password", .vStr "y"), ("DBName", .vStr "d")])])]

/-- Second member of an identity collision: `WithDatabase = false`,
host `h:5`, port `7`, user `7`. -/
def evColl2 : Fields :=
  [("RequestType", .vStr "Create"),
   ("ResourceProperties", .vDict
     [("User", .vStr "7"), ("Password", .vStr "x"), ("WithDatabase", .vStr "false"),
      ("Database", .vDict
        [("Host", .vStr "h:5"), ("Port", .vInt 7), ("User", .vStr "admin"),
         ("Password", .vStr "y"), ("DBName", .vStr "d")])])]

/-- An event whose `WithDatabase` is the capitalised string `True`. -/
def evTrueCap : Fields :=
  [("RequestType", .vStr "Create"),
   ("ResourceProperties", .vDict
     [("User", .vStr "app"), ("Password", .vStr "x"), ("WithDatabase", .vStr "True"),
      ("Database", .vDict
        [("Host", .vStr "db1"), ("User", .vStr "admin"),
         ("Password", .vStr "y"), ("DBName", .vStr "appdb")])])]

/-- An event whose `Database` has neither `Host` nor `Port`. -/
def evNoHost : Fields :=
  [("RequestType", .vStr "Create"),
   ("ResourceProperties", .vDict
     [("User", .vStr "app"), ("Password", .vStr "x"),
      ("Database", .vDict
        [("User", .vStr "admin"), ("Password", .vStr "y"), ("DBName", .vStr "appdb")])])]

/-- The dict `parse` produces for `evTrueCap` (used to witness the
case-sensitivity of `with_database`). -/
def sTrueCap : Fields :=
  [("RequestType", .vStr "Create"), ("User", .vStr "app"), ("Password", .vStr "x"),
   ("WithDatabase", .vStr "True"),
   ("Database", .vDict
     [("Host", .vStr "db1"), ("User", .vStr "admin"), ("Password", .vStr "y"),
      ("DBName", .vStr "appdb"), ("Port", .vInt 5432)])]

/-- A small validated descriptor dict used to witness identity determinism. -/
def sIdent : Fields :=
  [("User", .vStr "app"), ("Password", .vStr "x"), ("WithDatabase", .vStr "true"),
   ("Database", .vDict [("Host", .vStr "db1"), ("Port", .vInt 5432)])]

/-! ### Dictionary lemmas -/

theorem dget_dset_eq (d : Fields) (k : String) (v : Val) :
    dget (dset d k v) k = some v := by
  induction d with
  | nil => simp [dset, dget, List.find?]
  | cons p rest ih =>
      obtain ⟨k₁, v₁⟩ := p
      by_cases h : k₁ = k
      · subst h
        simp [dset, dget, List.find?]
      · simpa [dset, dget, List.find?, h] using ih

theorem dget_dset_ne (d : Fields) (k k' : String) (v : Val) (h : k' ≠ k) :
    dget (dset d k v) k' = dget d k' := by
  have hke : (k == k') = false := beq_eq_false_iff_ne.mpr (Ne.symm h)
  induction d with
  | nil => simp [dset, dget, List.find?, hke]
  | cons p rest ih =>
      obtain ⟨k₁, v₁⟩ := p
      by_cases h₁ : k₁ = k
      · subst h₁
        simp [dset, dget, List.find?, hke]
      · have hk1 : (k₁ == k) = false := beq_eq_false_iff_ne.mpr h₁
        by_cases h₂ : k₁ = k'
        · subst h₂
          simp [dset, dget, List.find?, hk1]
        · have hk2 : (k₁ == k') = false := beq_eq_false_iff_ne.mpr h₂
          simpa [dset, dget, List.find?, hk1, hk2] using ih

theorem dmem_eq_isSome (d : Fields) (k : String) :
    dmem d k = (dget d k).isSome := by
  unfold dmem dget
  cases h : d.find? (fun p => p.1 == k) <;> simp [h]

theorem dmem_dset_eq (d : Fields) (k : String) (v : Val) :
    dmem (dset d k v) k = true := by
  simp [dmem_eq_isSome, dget_dset_eq]

theorem dmem_dset_ne (d : Fields) (k k' : String) (v : Val) (h : k' ≠ k) :
    dmem (dset d k v) k' = dmem d k' := by
  simp [dmem_eq_isSome, dget_dset_ne d k k' v h]

/-! ### Inversion lemmas for the validation pipeline -/

theorem db_check_ok_inv (s : Fields) (h : db_check s = .ok ()) :
    ∃ db, dget s "Database" = some (.vDict db) ∧ dmem db "Host" = true ∧
      (∃ n, dget db "Port" = some (.vInt n)) ∧ dmem db "User" = true ∧
      dmem db "Password" = true ∧ dmem db "DBName" = true := by
  unfold db_check at h
  rcases hdb : dget s "Database" with _ | v
  · rw [hdb] at h
    simp at h
  · cases v with
    | vStr t =>
        rw [hdb] at h
        simp at h
    | vInt n =>
        rw [hdb] at h
        simp at h
    | vDict db =>
        rw [hdb] at h
        by_cases hHost : dmem db "Host" = true
        · by_cases hPort : dmem db "Port" = true
          · rcases hp : dget db "Port" with _ | pv
            · simp [hHost, hPort, hp] at h
            · cases pv with
              | vStr t => simp [hHost, hPort, hp] at h
              | vDict dd => simp [hHost, hPort, hp] at h
              | vInt n =>
                  simp only [hHost, hPort, hp, Bool.not_true, Bool.false_eq_true,
                    if_false] at h
                  by_cases hU : dmem db "User" = true
                  · by_cases hPw : dmem db "Password" = true
                    · by_cases hN : dmem db "DBName" = true
                      · exact ⟨db, rfl, hHost, ⟨n, hp⟩, hU, hPw, hN⟩
                      · simp [hU, hPw, hN] at h
                    · simp [hU, hPw] at h
                  · simp [hU] at h
          · simp [hHost, hPort] at h
        · simp [hHost] at h

theorem check_valid_ok_inv (s : Fields) (h : check_valid s = .ok ()) :
    dmem s "User" = true ∧ dmem s "Password" = true ∧ db_check s = .ok () := by
  unfold check_valid at h
  by_cases hU : dmem s "User" = true
  · by_cases hP : dmem s "Password" = true
    · rcases hw : wd_check s with e | u
      · rw [hw] at h
        simp [hU, hP] at h
      · cases u
        rw [hw] at h
        simp only [hU, hP, Bool.not_true, Bool.false_eq_true, if_false] at h
        exact ⟨hU, hP, h⟩
    · simp [hU, hP] at h
  · simp [hU] at h

theorem add_defaults_no_db (s : Fields) (hdb : dget s "Database" = none) :
    add_defaults s =
      .ok (if dmem s "WithDatabase" then s
           else dset s "WithDatabase" (.vStr "true")) := by
  unfold add_defaults
  rw [hdb]
  simp [Bind.bind, Except.bind, pure, Except.pure]
  split <;> rfl

theorem add_defaults_db_port (s : Fields) (db : Fields)
    (hdb : dget s "Database" = some (.vDict db)) (hp : dmem db "Port" = true) :
    add_defaults s =
      .ok (if dmem s "WithDatabase" then s
           else dset s "WithDatabase" (.vStr "true")) := by
  unfold add_defaults
  rw [hdb]
  simp [pyContains, hp, Bind.bind, Except.bind, pure, Except.pure]
  split <;> rfl

theorem add_defaults_db_no_port (s : Fields) (db : Fields)
    (hdb : dget s "Database" = some (.vDict db)) (hnp : dmem db "Port" = false) :
    add_defaults s =
      .ok (if dmem (dset s "Database" (.vDict (dset db "Port" (.vInt 5432)))) "WithDatabase"
           then dset s "Database" (.vDict (dset db "Port" (.vInt 5432)))
           else dset (dset s "Database" (.vDict (dset db "Port" (.vInt 5432))))
                  "WithDatabase" (.vStr "true")) := by
  unfold add_defaults
  rw [hdb]
  simp [pyContains, hnp, pySetItem, Bind.bind, Except.bind, pure, Except.pure]
  split <;> rfl

theorem add_defaults_str_db (s : Fields) (t : String)
    (hdb : dget s "Database" = some (.vStr t)) (hsub : ((t.splitOn "Port").length > 1)) :
    add_defaults s =
      .ok (if dmem s "WithDatabase" then s
           else dset s "WithDatabase" (.vStr "true")) := by
  unfold add_defaults
  rw [hdb]
  simp [pyContains, hsub, Bind.bind, Except.bind, pure, Except.pure]
  split <;> rfl

/-- Inversion: a successful `add_defaults` run either left the dict alone or
inserted the default port, and then possibly added the default
`WithDatabase`. -/
theorem add_defaults_ok_inv (s s' : Fields) (h : add_defaults s = .ok s') :
    ∃ s₁,
      ((dmem s₁ "WithDatabase" = true ∧ s' = s₁) ∨
        s' = dset s₁ "WithDatabase" (.vStr "true")) ∧
      ((s₁ = s ∧ (dget s "Database" = none ∨
                  (∃ t, dget s "Database" = some (.vStr t)) ∨
                  (∃ db, dget s "Database" = some (.vDict db) ∧ dmem db "Port" = true))) ∨
       (∃ db, dget s "Database" = some (.vDict db) ∧ dmem db "Port" = false ∧
          s₁ = dset s "Database" (.vDict (dset db "Port" (.vInt 5432))))) := by
  rcases hdb : dget s "Database" with _ | v
  · rw [add_defaults_no_db s hdb] at h
    by_cases hw : dmem s "WithDatabase" = true
    · rw [if_pos hw] at h
      exact ⟨s, Or.inl ⟨hw, (Except.ok.injEq _ _).mp h.symm⟩, Or.inl ⟨rfl, Or.inl rfl⟩⟩
    · rw [if_neg (by simpa using hw)] at h
      exact ⟨s, Or.inr ((Except.ok.injEq _ _).mp h.symm), Or.inl ⟨rfl, Or.inl rfl⟩⟩
  · cases v with
    | vStr t =>
        by_cases hsub : ((t.splitOn "Port").length > 1)
        · rw [add_defaults_str_db s t hdb hsub] at h
          by_cases hw : dmem s "WithDatabase" = true
          · rw [if_pos hw] at h
            exact ⟨s, Or.inl ⟨hw, (Except.ok.injEq _ _).mp h.symm⟩,
              Or.inl ⟨rfl, Or.inr (Or.inl ⟨t, rfl⟩)⟩⟩
          · rw [if_neg (by simpa using hw)] at h
            exact ⟨s, Or.inr ((Except.ok.injEq _ _).mp h.symm),
              Or.inl ⟨rfl, Or.inr (Or.inl ⟨t, rfl⟩)⟩⟩
        · exfalso
          unfold add_defaults at h
          rw [hdb] at h
          simp [pyContains, pySetItem, Bind.bind, Except.bind, hsub] at h
    | vInt n =>
        exfalso
        unfold add_defaults at h
        rw [hdb] at h
        simp [pyContains, Bind.bind, Except.bind] at h
    | vDict db =>
        by_cases hp : dmem db "Port" = true
        · rw [add_defaults_db_port s db hdb hp] at h
          by_cases hw : dmem s "WithDatabase" = true
          · rw [if_pos hw] at h
            exact ⟨s, Or.inl ⟨hw, (Except.ok.injEq _ _).mp h.symm⟩,
              Or.inl ⟨rfl, Or.inr (Or.inr ⟨db, rfl, hp⟩)⟩⟩
          · rw [if_neg (by simpa using hw)] at h
            exact ⟨s, Or.inr ((Except.ok.injEq _ _).mp h.symm),
              Or.inl ⟨rfl, Or.inr (Or.inr ⟨db, rfl, hp⟩)⟩⟩
        · have hnp : dmem db "Port" = false := by simpa using hp
          rw [add_defaults_db_no_port s db hdb hnp] at h
          by_cases hw : dmem (dset s "Database" (.vDict (dset db "Port" (.vInt 5432)))) "WithDatabase" = true
          · rw [if_pos hw] at h
            exact ⟨dset s "Database" (.vDict (dset db "Port" (.vInt 5432))),
              Or.inl ⟨hw, (Except.ok.injEq _ _).mp h.symm⟩,
              Or.inr ⟨db, rfl, hnp, rfl⟩⟩
          · rw [if_neg (by simpa using hw)] at h
            exact ⟨dset s "Database" (.vDict (dset db "Port" (.vInt 5432))),
              Or.inr ((Except.ok.injEq _ _).mp h.symm),
              Or.inr ⟨db, rfl, hnp, rfl⟩⟩

/-- After `add_defaults` succeeds, `WithDatabase` is always present. -/
theorem add_defaults_wd (s s' : Fields) (h : add_defaults s = .ok s') :
    dmem s' "WithDatabase" = true := by
  obtain ⟨s₁, hw, _⟩ := add_defaults_ok_inv s s' h
  rcases hw with ⟨hm, rfl⟩ | rfl
  · exact hm
  · exact dmem_dset_eq s₁ "WithDatabase" (.vStr "true")

/-- After `add_defaults` succeeds, any dict `Database` value contains
`Port`. -/
theorem add_defaults_port (s s' : Fields) (h : add_defaults s = .ok s')
    (db' : Fields) (hdb : dget s' "Database" = some (.vDict db')) :
    dmem db' "Port" = true := by
  obtain ⟨s₁, hw, hc⟩ := add_defaults_ok_inv s s' h
  have hd1 : dget s₁ "Database" = some (.vDict db') := by
    rcases hw with ⟨_, rfl⟩ | rfl
    · exact hdb
    · rwa [dget_dset_ne s₁ "WithDatabase" "Database" _ (by decide)] at hdb
  rcases hc with ⟨rfl, hcase⟩ | ⟨db, hdbs, hnp, rfl⟩
  · rcases hcase with hnone | ⟨t, hstr⟩ | ⟨db, hdict, hp⟩
    · rw [hnone] at hd1
      cases hd1
    · rw [hstr] at hd1
      cases hd1
    · rw [hdict] at hd1
      cases hd1
      exact hp
  · rw [dget_dset_eq] at hd1
    cases hd1
    exact dmem_dset_eq db "Port" (.vInt 5432)

/-- Inversion: a successful `parse` is a successful merge, default and
validation in sequence. -/
theorem parse_ok_inv (event s : Fields) (h : parse event = .ok s) :
    ∃ m, mergeEvent event = .ok m ∧ add_defaults m = .ok s ∧
      check_valid s = .ok () := by
  unfold parse at h
  rcases hm : mergeEvent event with e | m
  · simp only [hm, Bind.bind, Except.bind] at h
    exact absurd h (by simp)
  · simp only [hm, Bind.bind, Except.bind] at h
    rcases ha : add_defaults m with e | s₁
    · simp only [ha] at h
      exact absurd h (by simp)
    · simp only [ha] at h
      rcases hc : check_valid s₁ with e | u
      · simp only [hc] at h
        exact absurd h (by simp)
      · cases u
        simp only [hc, pure, Except.pure, Except.ok.injEq] at h
        subst h
        exact ⟨m, rfl, ha, hc⟩

/-- Inversion: a failing `parse` pinpoints the failing stage. -/
theorem parse_error_inv (event : Fields) (e : PyErr) (h : parse event = .error e) :
    mergeEvent event = .error e ∨
    (∃ m, mergeEvent event = .ok m ∧ add_defaults m = .error e) ∨
    (∃ m s, mergeEvent event = .ok m ∧ add_defaults m = .ok s ∧
      check_valid s = .error e) := by
  unfold parse at h
  rcases hm : mergeEvent event with e₁ | m
  · simp only [hm, Bind.bind, Except.bind, Except.error.injEq] at h
    subst h
    exact Or.inl rfl
  · simp only [hm, Bind.bind, Except.bind] at h
    rcases ha : add_defaults m with e₁ | s₁
    · simp only [ha, Except.error.injEq] at h
      subst h
      exact Or.inr (Or.inl ⟨m, rfl, ha⟩)
    · simp only [ha] at h
      rcases hc : check_valid s₁ with e₁ | u
      · simp only [hc, Except.error.injEq] at h
        subst h
        exact Or.inr (Or.inr ⟨m, s₁, rfl, ha, hc⟩)
      · cases u
        simp only [hc, pure, Except.pure] at h
        exact absurd h (by simp)

/-- `mergeEvent` can only fail with the `ResourceProperties` `KeyError` or
the `dict.update` `TypeError`. -/
theorem mergeEvent_error_inv (event : Fields) (e : PyErr)
    (h : mergeEvent event = .error e) :
    e = .keyError "ResourceProperties" ∨
    e = .typeError "cannot convert dictionary update sequence" := by
  unfold mergeEvent at h
  rcases hr : dget event "ResourceProperties" with _ | v
  · rw [hr] at h
    cases h
    exact Or.inl rfl
  · rw [hr] at h
    cases v with
    | vStr t =>
        cases h
        exact Or.inr rfl
    | vInt n =>
        cases h
        exact Or.inr rfl
    | vDict d => cases h

/-- `add_defaults` can only fail with a `TypeError` (from the containment
test or the item assignment on a non-dict `Database`). -/
theorem add_defaults_error_inv (s : Fields) (e : PyErr)
    (h : add_defaults s = .error e) : ∃ m, e = .typeError m := by
  rcases hdb : dget s "Database" with _ | v
  · rw [add_defaults_no_db s hdb] at h
    simp at h
  · cases v with
    | vStr t =>
        by_cases hsub : ((t.splitOn "Port").length > 1)
        · rw [add_defaults_str_db s t hdb hsub] at h
          simp at h
        · unfold add_defaults at h
          rw [hdb] at h
          simp [pyContains, hsub, pySetItem, Bind.bind, Except.bind, pure,
            Except.pure, Except.error.injEq] at h
          exact ⟨_, h.symm⟩
    | vInt n =>
        unfold add_defaults at h
        rw [hdb] at h
        simp [pyContains, Bind.bind, Except.bind, Except.error.injEq] at h
        exact ⟨_, h.symm⟩
    | vDict db =>
        by_cases hp : dmem db "Port" = true
        · rw [add_defaults_db_port s db hdb hp] at h
          simp at h
        · have hnp : dmem db "Port" = false := by simpa using hp
          rw [add_defaults_db_no_port s db hdb hnp] at h
          simp at h

/-- The `WithDatabase` shape failure is the only error `wd_check` raises,
and its message starts with the property name. -/
theorem wd_check_error_inv (s : Fields) (e : PyErr) (h : wd_check s = .error e) :
    ∃ v, e = .valueError ("WithDatabase property \"" ++ v ++ "\" is not a boolean") := by
  unfold wd_check at h
  rcases hw : dget s "WithDatabase" with _ | wv
  · rw [hw] at h
    cases h
  · rw [hw] at h
    simp only at h
    split at h
    · cases h
      exact ⟨_, rfl⟩
    · cases h

/-- The head character of the `WithDatabase` validation message. -/
theorem wd_msg_head (v : String) :
    ("WithDatabase property \"" ++ v ++ "\" is not a boolean").data.head? = some 'W' := rfl

/-- The `WithDatabase` validation message never coincides with a string
starting with any other character. -/
theorem wd_msg_ne (v t : String) (ht : t.data.head? ≠ some 'W') :
    ("WithDatabase property \"" ++ v ++ "\" is not a boolean") ≠ t := by
  intro h
  exact ht (by rw [← h]; exact wd_msg_head v)

/-- Enumeration of every error `db_check` can raise; the port-missing
message additionally pins down the dict shape that produced it. -/
theorem db_check_error_cases (s : Fields) (e : PyErr) (h : db_check s = .error e) :
    e = .valueError "Database property is required and must be an object" ∨
    e = .valueError "Host is required in Database" ∨
    (e = .valueError "Port is required in Database" ∧
      ∃ db, dget s "Database" = some (.vDict db) ∧ dmem db "Port" = false) ∨
    e = .typeError "descriptor isdigit of str object needs an argument" ∨
    e = .valueError "User is required in Database" ∨
    e = .valueError "Password is required in Database" ∨
    e = .valueError "DBName is required in Database" := by
  unfold db_check at h
  rcases hdb : dget s "Database" with _ | v
  · rw [hdb] at h
    cases h
    exact Or.inl rfl
  · rw [hdb] at h
    cases v with
    | vStr t =>
        cases h
        exact Or.inl rfl
    | vInt n =>
        cases h
        exact Or.inl rfl
    | vDict db =>
        by_cases hHost : dmem db "Host" = true
        · by_cases hPort : dmem db "Port" = true
          · rcases hp : dget db "Port" with _ | pv
            · simp only [hHost, hPort, hp, Bool.not_true, Bool.false_eq_true, if_false] at h
              cases h
              exact Or.inr (Or.inr (Or.inr (Or.inl rfl)))
            · cases pv with
              | vStr t =>
                  simp only [hHost, hPort, hp, Bool.not_true, Bool.false_eq_true, if_false] at h
                  cases h
                  exact Or.inr (Or.inr (Or.inr (Or.inl rfl)))
              | vDict dd =>
                  simp only [hHost, hPort, hp, Bool.not_true, Bool.false_eq_true, if_false] at h
                  cases h
                  exact Or.inr (Or.inr (Or.inr (Or.inl rfl)))
              | vInt n =>
                  simp only [hHost, hPort, hp, Bool.not_true, Bool.false_eq_true, if_false] at h
                  by_cases hU : dmem db "User" = true
                  · by_cases hPw : dmem db "Password" = true
                    · by_cases hN : dmem db "DBName" = true
                      · simp [hU, hPw, hN] at h
                      · have hn : dmem db "DBName" = false := by simpa using hN
                        simp only [hU, hPw, hn, Bool.not_true, Bool.not_false,
                          Bool.false_eq_true, if_false, if_true] at h
                        cases h
                        exact Or.inr (Or.inr (Or.inr (Or.inr (Or.inr (Or.inr rfl)))))
                    · have hpw : dmem db "Password" = false := by simpa using hPw
                      simp only [hU, hpw, Bool.not_true, Bool.not_false,
                        Bool.false_eq_true, if_false, if_true] at h
                      cases h
                      exact Or.inr (Or.inr (Or.inr (Or.inr (Or.inr (Or.inl rfl)))))
                  · have hu : dmem db "User" = false := by simpa using hU
                    simp only [hu, Bool.not_false, if_true] at h
                    cases h
                    exact Or.inr (Or.inr (Or.inr (Or.inr (Or.inl rfl))))
          · have hnp : dmem db "Port" = false := by simpa using hPort
            simp only [hHost, hnp, Bool.not_true, Bool.not_false,
              Bool.false_eq_true, if_false, if_true] at h
            cases h
            exact Or.inr (Or.inr (Or.inl ⟨rfl, db, rfl, hnp⟩))
        · have hnh : dmem db "Host" = false := by simpa using hHost
          simp only [hnh, Bool.not_false, if_true] at h
          cases h
          exact Or.inr (Or.inl rfl)

/-- Enumeration of every error `check_valid` can raise before reaching the
`Database` block. -/
theorem check_valid_error_cases (s : Fields) (e : PyErr)
    (h : check_valid s = .error e) :
    e = .valueError "User property is required" ∨
    e = .valueError "Password property is required" ∨
    (∃ v, e = .valueError ("WithDatabase property \"" ++ v ++ "\" is not a boolean")) ∨
    db_check s = .error e := by
  unfold check_valid at h
  by_cases hU : dmem s "User" = true
  · by_cases hP : dmem s "Password" = true
    · rcases hw : wd_check s with e₁ | u
      · simp only [hU, hP, hw, Bool.not_true, Bool.false_eq_true, if_false] at h
        cases h
        exact Or.inr (Or.inr (Or.inl (wd_check_error_inv s _ hw)))
      · cases u
        simp only [hU, hP, hw, Bool.not_true, Bool.false_eq_true, if_false] at h
        exact Or.inr (Or.inr (Or.inr h))
    · have hp : dmem s "Password" = false := by simpa using hP
      simp only [hU, hp, Bool.not_true, Bool.not_false, Bool.false_eq_true,
        if_false, if_true] at h
      cases h
      exact Or.inr (Or.inl rfl)
  · have hu : dmem s "User" = false := by simpa using hU
    simp only [hu, Bool.not_false, if_true] at h
    cases h
    exact Or.inl rfl

theorem dget_of_dmem (d : Fields) (k : String) (h : dmem d k = true) :
    ∃ v, dget d k = some v := by
  rw [dmem_eq_isSome] at h
  rcases hg : dget d k with _ | v
  · rw [hg] at h
    simp at h
  · exact ⟨v, rfl⟩

/-- On any dict passing `check_valid` that carries `WithDatabase` (as every
`add_defaults` output does), all four `url` components are readable and the
minted identity is exactly `fmtUrl` of the four-tuple. -/
theorem url_components (s : Fields) (hwd : dmem s "WithDatabase" = true)
    (hc : check_valid s = .ok ()) :
    ∃ (b : Bool) (hv pv uv : Val),
      with_database s = .ok b ∧ host s = .ok hv ∧ port s = .ok pv ∧
      user s = .ok uv ∧
      url s = .ok (fmtUrl (b, str_of hv, str_of pv, str_of uv)) := by
  obtain ⟨hU, hP, hdbok⟩ := check_valid_ok_inv s hc
  obtain ⟨db, hdb, hHost, ⟨n, hp⟩, _, _, _⟩ := db_check_ok_inv s hdbok
  obtain ⟨wv, hwv⟩ := dget_of_dmem s "WithDatabase" hwd
  obtain ⟨uv, huv⟩ := dget_of_dmem s "User" hU
  obtain ⟨hv, hhv⟩ := dget_of_dmem db "Host" hHost
  have hhost : host s = .ok hv := by
    unfold host
    simp [Bind.bind, Except.bind, hdb, pyGetItem, hhv]
  have hport : port s = .ok (.vInt n) := by
    unfold port
    simp [Bind.bind, Except.bind, hdb, pyGetItem, hp]
  have huser : user s = .ok uv := by
    unfold user
    rw [huv]
  have hwdb : ∃ b, with_database s = .ok b := by
    unfold with_database
    rw [hwv]
    cases wv with
    | vStr x => exact ⟨x == "true", rfl⟩
    | vInt n₂ => exact ⟨false, rfl⟩
    | vDict d₂ => exact ⟨false, rfl⟩
  obtain ⟨b, hwdv⟩ := hwdb
  cases b with
  | false =>
      refine ⟨false, hv, .vInt n, uv, hwdv, hhost, hport, huser, ?_⟩
      unfold url
      simp [Bind.bind, Except.bind, hwdv, hhost, hport, huser, pure, Except.pure, fmtUrl]
  | true =>
      refine ⟨true, hv, .vInt n, uv, hwdv, hhost, hport, huser, ?_⟩
      unfold url
      simp [Bind.bind, Except.bind, hwdv, hhost, hport, huser, pure, Except.pure, fmtUrl]

/-- On any `parse` output the minted identity is defined (the reason the
SUCCESS response built outside the `try` of the `create` handler cannot
itself raise). -/
theorem url_ok_of_parse (event s : Fields) (h : parse event = .ok s) :
    ∃ u, url s = .ok u := by
  obtain ⟨m, _, ha, hc⟩ := parse_ok_inv event s h
  obtain ⟨b, hv, pv, uv, _, _, _, _, hurl⟩ :=
    url_components s (add_defaults_wd m s ha) hc
  exact ⟨_, hurl⟩

/-- When the identity four-tuple is defined, the minted identity is exactly
its `fmtUrl` rendering. -/
theorem url_eq_fmt (s : Fields) (k : Bool × String × String × String)
    (h : identFields s = .ok k) : url s = .ok (fmtUrl k) := by
  unfold identFields at h
  rcases hw : with_database s with e | wd
  · simp only [hw, Bind.bind, Except.bind] at h
    exact absurd h (by simp)
  · simp only [hw, Bind.bind, Except.bind] at h
    rcases hh : host s with e | hv
    · simp only [hh] at h
      exact absurd h (by simp)
    · simp only [hh] at h
      rcases hp : port s with e | pv
      · simp only [hp] at h
        exact absurd h (by simp)
      · simp only [hp] at h
        rcases hu : user s with e | uv
        · simp only [hu] at h
          exact absurd h (by simp)
        · simp only [hu, pure, Except.pure, Except.ok.injEq] at h
          subst h
          unfold url
          cases wd with
          | false =>
              simp [Bind.bind, Except.bind, hw, hh, hp, hu, pure, Except.pure, fmtUrl]
          | true =>
              simp [Bind.bind, Except.bind, hw, hh, hp, hu, pure, Except.pure, fmtUrl]

/-- The minted identity never reads `Password`: overwriting it leaves `url`
untouched. -/
theorem url_dset_password (s : Fields) (pw : Val) :
    url (dset s "Password" pw) = url s := by
  unfold url with_database host port user
  rw [dget_dset_ne s "Password" "WithDatabase" pw (by decide),
    dget_dset_ne s "Password" "Database" pw (by decide),
    dget_dset_ne s "Password" "User" pw (by decide)]

/-- A dict whose `WithDatabase` has the accepted boolean shape passes the
`wd_check` stage. -/
theorem wd_check_ok_of_shape (s : Fields) (h : wdShapeOk s = true) :
    wd_check s = .ok () := by
  unfold wd_check
  unfold wdShapeOk at h
  rcases hg : dget s "WithDatabase" with _ | wv
  · rfl
  · rw [hg] at h
    have h' : (pyLower (str_of wv) == "true" || pyLower (str_of wv) == "false") = true := h
    simp [h']

/-- Reaching the `Database` block with `Host` absent yields exactly the
`Host is required in Database` error, whatever else the dict holds. -/
theorem check_valid_host_error (t db' : Fields)
    (htU : dmem t "User" = true) (htP : dmem t "Password" = true)
    (htw : wd_check t = .ok ())
    (htdb : dget t "Database" = some (.vDict db'))
    (hth : dmem db' "Host" = false) :
    check_valid t = .error (.valueError "Host is required in Database") := by
  unfold check_valid db_check
  simp only [htU, htP, htw, htdb, hth, Bool.not_true, Bool.not_false,
    Bool.false_eq_true, if_false, if_true]

/-- The create-failure reason is never the empty string. -/
theorem create_fail_reason_ne_empty (x : String) :
    ("Failed to create user, " ++ x) ≠ "" := by
  intro h
  have h2 := congrArg String.data h
  rw [String.data_append] at h2
  simp at h2

/-- The duplicate-user reason is never the empty string. -/
theorem conflict_reason_ne_empty (u : String) :
    ("User " ++ u ++ " already exists") ≠ "" := by
  intro h
  have h2 := congrArg String.data h
  rw [String.data_append, String.data_append] at h2
  simp at h2

/-! ### Claim theorems -/

/-- C1: for every event whose role already exists in the target database,
the Create handler returns FAILED with a reason naming the duplicate user
(`User <name> already exists`), with the fixed sentinel physical id
`could-not-create`, and the only SQL it issued is the existence lookup —
never a `CREATE ROLE`. -/
theorem create_conflict_fails_without_create_role
    (env : Env) (event s : Fields) (uv : Val)
    (hconn : env.connectErr = none) (hq : env.queryErr = none)
    (hp : parse event = .ok s) (hu : user s = .ok uv)
    (hex : env.users.contains (str_of uv) = true) :
    (runCreate env event).resp =
      .ok ⟨"FAILED", "User " ++ str_of uv ++ " already exists",
        .vStr "could-not-create", []⟩ ∧
    (runCreate env event).stmts = [.selectUser (str_of uv)] := by
  unfold runCreate connectOutcome
  simp only [hp, hconn, hu, hq, hex, if_true]
  exact ⟨trivial, trivial⟩

/-- Witness for C1: a concrete event whose role `app` already exists. -/
theorem create_conflict_fails_without_create_role_witness :
    (runCreate ⟨none, none, ["app"]⟩ evBase).resp =
      .ok ⟨"FAILED", "User app already exists", .vStr "could-not-create", []⟩ ∧
    (runCreate ⟨none, none, ["app"]⟩ evBase).stmts = [.selectUser "app"] :=
  create_conflict_fails_without_create_role ⟨none, none, ["app"]⟩ evBase _
    (.vStr "app") rfl rfl rfl rfl rfl

/-- C2: for every valid event whose role does not exist, the Delete handler
returns SUCCESS carrying the event's incoming `PhysicalResourceId`
unchanged, issues only the existence lookup (no `DROP ROLE`, no DDL), and
leaves the role set untouched. -/
theorem delete_absent_role_noop
    (env : Env) (event s : Fields) (uv p : Val)
    (hconn : env.connectErr = none) (hq : env.queryErr = none)
    (hp : parse event = .ok s) (hu : user s = .ok uv)
    (habs : env.users.contains (str_of uv) = false)
    (hpid : dget event "PhysicalResourceId" = some p) :
    (runDelete env event).resp = .ok ⟨"SUCCESS", "", p, []⟩ ∧
    (runDelete env event).stmts = [.selectUser (str_of uv)] ∧
    (runDelete env event).usersAfter = env.users := by
  unfold runDelete connectOutcome deleteOk
  simp only [hp, hconn, hu, hq, habs, hpid, Bool.false_eq_true, if_false]
  exact ⟨trivial, trivial, trivial⟩

/-- Witness for C2: deleting the absent role `app` with incoming id `X`. -/
theorem delete_absent_role_noop_witness :
    (runDelete ⟨none, none, []⟩ evDelete).resp =
      .ok ⟨"SUCCESS", "", .vStr "X", []⟩ ∧
    (runDelete ⟨none, none, []⟩ evDelete).stmts = [.selectUser "app"] ∧
    (runDelete ⟨none, none, []⟩ evDelete).usersAfter = [] :=
  delete_absent_role_noop ⟨none, none, []⟩ evDelete _ (.vStr "app") (.vStr "X")
    rfl rfl rfl rfl rfl rfl

/-- C4 (code bug): the Update handler never returns the claimed SUCCESS
response — evaluating its arguments raises `NameError` for the unbound name
`reason`, shown here on a well-formed Update event. -/
theorem update_raises_nameerror_not_success :
    runUpdate evUpdate = .error (.nameError "global name reason is not defined") := rfl

/-- C5 counterexample: on a Delete event whose connection to the target
database fails, the response status is FAILED, not the claimed SUCCESS
(though the incoming physical id `X` is preserved and no SQL runs). -/
theorem delete_connection_failure_returns_failed :
    (runDelete ⟨some "timeout", none, ["app"]⟩ evDelete).resp =
      .ok ⟨"FAILED", "Failed to connect, timeout", .vStr "X", []⟩ ∧
    (runDelete ⟨some "timeout", none, ["app"]⟩ evDelete).stmts = [] ∧
    (runDelete ⟨some "timeout", none, ["app"]⟩ evDelete).usersAfter = ["app"] :=
  ⟨rfl, rfl, rfl⟩

/-- C5 amended: on a connection failure the Delete handler returns a FAILED
response whose reason is the wrapped connection error, but it still carries
the event's incoming physical id unchanged and issues no SQL at all. -/
theorem delete_connection_failure_keeps_id
    (env : Env) (event s : Fields) (m : String) (p : Val)
    (hp : parse event = .ok s) (hconn : env.connectErr = some m)
    (hpid : dget event "PhysicalResourceId" = some p) :
    (runDelete env event).resp =
      .ok ⟨"FAILED", "Failed to connect, " ++ m, p, []⟩ ∧
    (runDelete env event).stmts = [] ∧
    (runDelete env event).usersAfter = env.users := by
  unfold runDelete connectOutcome deleteFail
  simp only [hp, hconn, hpid, PyErr.message]
  exact ⟨trivial, trivial, trivial⟩

/-- Witness for the amended C5. -/
theorem delete_connection_failure_keeps_id_witness :
    (runDelete ⟨some "down", none, []⟩ evDelete).resp =
      .ok ⟨"FAILED", "Failed to connect, down", .vStr "X", []⟩ ∧
    (runDelete ⟨some "down", none, []⟩ evDelete).stmts = [] ∧
    (runDelete ⟨some "down", none, []⟩ evDelete).usersAfter = [] :=
  delete_connection_failure_keeps_id ⟨some "down", none, []⟩ evDelete _ "down"
    (.vStr "X") rfl rfl rfl

/-- C3 counterexample: two validated Create events that disagree on the
whole identity four-tuple — `(withDatabase, host, port, user)` =
`(true, //h, 5, 7)` versus `(false, h:5, 7, 7)` — mint the *same* physical
id `postgresql://h:5:7?user=7`, because the unescaped `:` separators make
the encoding non-injective.  So identical identity does not imply identical
four-tuple. -/
theorem create_identity_collision :
    (runCreate ⟨none, none, []⟩ evColl1).resp =
      .ok ⟨"SUCCESS", "", .vStr "postgresql://h:5:7?user=7", []⟩ ∧
    (runCreate ⟨none, none, []⟩ evColl2).resp =
      .ok ⟨"SUCCESS", "", .vStr "postgresql://h:5:7?user=7", []⟩ ∧
    identOfEvent evColl1 = .ok (true, "//h", "5", "7") ∧
    identOfEvent evColl2 = .ok (false, "h:5", "7", "7") ∧
    ((true, "//h", "5", "7") : Bool × String × String × String) ≠
      (false, "h:5", "7", "7") :=
  ⟨rfl, rfl, rfl, rfl, by decide⟩

/-- C3 amended: the minted identity is a deterministic function of exactly
the four-tuple `(withDatabase, host, port, user)` — two descriptors with the
same four-tuple mint the same id, and overwriting the password changes
nothing — but the converse direction of the claimed iff fails (see the
collision counterexample). -/
theorem create_identity_function_of_four_tuple
    (s₁ s₂ : Fields) (k : Bool × String × String × String) (pw : Val)
    (h₁ : identFields s₁ = .ok k) (h₂ : identFields s₂ = .ok k) :
    url s₁ = .ok (fmtUrl k) ∧ url s₂ = url s₁ ∧
    url (dset s₁ "Password" pw) = url s₁ := by
  have u₁ := url_eq_fmt s₁ k h₁
  have u₂ := url_eq_fmt s₂ k h₂
  exact ⟨u₁, u₂.trans u₁.symm, url_dset_password s₁ pw⟩

/-- Witness for the amended C3 at a concrete validated descriptor. -/
theorem create_identity_function_of_four_tuple_witness :
    identFields sIdent = .ok (true, "db1", "5432", "app") ∧
    (url sIdent = .ok (fmtUrl (true, "db1", "5432", "app")) ∧
     url sIdent = url sIdent ∧
     url (dset sIdent "Password" (.vStr "z")) = url sIdent) :=
  ⟨rfl, create_identity_function_of_four_tuple sIdent sIdent
    (true, "db1", "5432", "app") (.vStr "z") rfl rfl⟩

/-- C6: validation checks fields in the fixed source order; in particular an
event whose merged properties have `User`, `Password`, an acceptable
`WithDatabase` shape and a dict `Database` missing both `Host` and `Port`
fails naming `Host` (the earlier check), never `Port` — the port default has
already been inserted when `check_valid` runs. -/
theorem validation_cites_host_before_port
    (event m db : Fields)
    (hm : mergeEvent event = .ok m)
    (hu : dmem m "User" = true) (hpw : dmem m "Password" = true)
    (hwd : wdShapeOk m = true)
    (hdb : dget m "Database" = some (.vDict db))
    (hnh : dmem db "Host" = false) (hnp : dmem db "Port" = false) :
    parse event = .error (.valueError "Host is required in Database") := by
  have ha := add_defaults_db_no_port m db hdb hnp
  have h1U : dmem (dset m "Database" (.vDict (dset db "Port" (.vInt 5432)))) "User" = true := by
    rw [dmem_dset_ne m "Database" "User" _ (by decide)]
    exact hu
  have h1P : dmem (dset m "Database" (.vDict (dset db "Port" (.vInt 5432)))) "Password" = true := by
    rw [dmem_dset_ne m "Database" "Password" _ (by decide)]
    exact hpw
  have h1db : dget (dset m "Database" (.vDict (dset db "Port" (.vInt 5432)))) "Database" =
      some (.vDict (dset db "Port" (.vInt 5432))) := dget_dset_eq m "Database" _
  have hHost1 : dmem (dset db "Port" (.vInt 5432)) "Host" = false := by
    rw [dmem_dset_ne db "Port" "Host" _ (by decide)]
    exact hnh
  have h1wd : dget (dset m "Database" (.vDict (dset db "Port" (.vInt 5432)))) "WithDatabase" =
      dget m "WithDatabase" := dget_dset_ne m "Database" "WithDatabase" _ (by decide)
  by_cases hw1 : dmem (dset m "Database" (.vDict (dset db "Port" (.vInt 5432)))) "WithDatabase" = true
  · have ha' : add_defaults m =
        .ok (dset m "Database" (.vDict (dset db "Port" (.vInt 5432)))) := by
      rw [ha, if_pos hw1]
    have hwok : wd_check (dset m "Database" (.vDict (dset db "Port" (.vInt 5432)))) = .ok () := by
      apply wd_check_ok_of_shape
      unfold wdShapeOk
      rw [h1wd]
      unfold wdShapeOk at hwd
      exact hwd
    have hcv := check_valid_host_error _ _ h1U h1P hwok h1db hHost1
    unfold parse
    simp only [hm, Bind.bind, Except.bind, ha', hcv]
  · have ha' : add_defaults m =
        .ok (dset (dset m "Database" (.vDict (dset db "Port" (.vInt 5432))))
          "WithDatabase" (.vStr "true")) := by
      rw [ha, if_neg]
      simpa using hw1
    have h2U : dmem (dset (dset m "Database" (.vDict (dset db "Port" (.vInt 5432))))
        "WithDatabase" (.vStr "true")) "User" = true := by
      rw [dmem_dset_ne _ "WithDatabase" "User" _ (by decide)]
      exact h1U
    have h2P : dmem (dset (dset m "Database" (.vDict (dset db "Port" (.vInt 5432))))
        "WithDatabase" (.vStr "true")) "Password" = true := by
      rw [dmem_dset_ne _ "WithDatabase" "Password" _ (by decide)]
      exact h1P
    have h2db : dget (dset (dset m "Database" (.vDict (dset db "Port" (.vInt 5432))))
        "WithDatabase" (.vStr "true")) "Database" =
        some (.vDict (dset db "Port" (.vInt 5432))) := by
      rw [dget_dset_ne _ "WithDatabase" "Database" _ (by decide)]
      exact h1db
    have hwok : wd_check (dset (dset m "Database" (.vDict (dset db "Port" (.vInt 5432))))
        "WithDatabase" (.vStr "true")) = .ok () := by
      unfold wd_check
      rw [dget_dset_eq]
      rfl
    have hcv := check_valid_host_error _ _ h2U h2P hwok h2db hHost1
    unfold parse
    simp only [hm, Bind.bind, Except.bind, ha', hcv]

/-- Witness for C6: an event missing both `Database.Host` and
`Database.Port` fails citing `Host`. -/
theorem validation_cites_host_before_port_witness :
    parse evNoHost = .error (.valueError "Host is required in Database") :=
  validation_cites_host_before_port evNoHost _ _ rfl rfl rfl rfl rfl rfl rfl

/-- C7 (code bug): the create handler converts every error — validation,
connection or query — into a returned FAILED response with a non-empty
reason (no exception escapes it), but the update handler violates the
boundary policy: it raises `NameError` instead of returning any response. -/
theorem create_boundary_total_update_raises :
    (∀ (env : Env) (event : Fields), ∃ r, (runCreate env event).resp = .ok r ∧
       (r.Status = "FAILED" → r.Reason ≠ "")) ∧
    runUpdate evUpdate = .error (.nameError "global name reason is not defined") := by
  constructor
  · intro env event
    unfold runCreate connectOutcome
    rcases hp : parse event with e | s
    · dsimp only
      exact ⟨_, rfl, fun _ => create_fail_reason_ne_empty _⟩
    · dsimp only
      rcases hcn : env.connectErr with _ | cm
      · dsimp only
        rcases hu : user s with e | uv
        · dsimp only
          exact ⟨_, rfl, fun _ => create_fail_reason_ne_empty _⟩
        · dsimp only
          rcases hq : env.queryErr with _ | qm
          · dsimp only
            by_cases hex : env.users.contains (str_of uv) = true
            · simp only [hex, if_true]
              exact ⟨_, rfl, fun _ => conflict_reason_ne_empty _⟩
            · have hex' : env.users.contains (str_of uv) = false := by simpa using hex
              simp only [hex', Bool.false_eq_true, if_false]
              rcases hpw : password s with e | pv
              · dsimp only
                exact ⟨_, rfl, fun _ => create_fail_reason_ne_empty _⟩
              · dsimp only
                obtain ⟨u, hurl⟩ := url_ok_of_parse event s hp
                simp only [hurl]
                exact ⟨_, rfl, fun hc => absurd hc (by simp)⟩
          · dsimp only
            exact ⟨_, rfl, fun _ => create_fail_reason_ne_empty _⟩
      · dsimp only
        exact ⟨_, rfl, fun _ => create_fail_reason_ne_empty _⟩
  · rfl

/-- Witness for C7 at a concrete environment and event. -/
theorem create_boundary_total_update_raises_witness :
    ∃ r, (runCreate ⟨none, none, []⟩ evBase).resp = .ok r ∧
      (r.Status = "FAILED" → r.Reason ≠ "") :=
  create_boundary_total_update_raises.1 ⟨none, none, []⟩ evBase

/-- C8 counterexample: the port check does not vacuously accept every
present `Database.Port` — on an event whose port is the numeric *string*
`"5432"`, evaluating the second operand `str.isdigit()` raises `TypeError`,
so validation rejects the event (with a different error than the
`Port is required to be an integer` `ValueError` the claim names). -/
theorem port_string_rejected_with_typeerror :
    parse evStrPort =
      .error (.typeError "descriptor isdigit of str object needs an argument") ∧
    (PyErr.typeError "descriptor isdigit of str object needs an argument" ≠
      PyErr.valueError "Port is required to be an integer in Database") :=
  ⟨rfl, by decide⟩

/-- C8 amended: the second operand of the port check raises `TypeError`
instead of being always true, so integer ports pass, any non-integer port
aborts validation with that `TypeError`, and consequently the
`Port is required to be an integer in Database` `ValueError` is indeed
unreachable for every event. -/
theorem port_integer_valueerror_unreachable :
    ∀ event : Fields,
      parse event ≠ .error (.valueError "Port is required to be an integer in Database") := by
  intro event h
  rcases parse_error_inv event _ h with hm | ⟨m, _, ha⟩ | ⟨m, s, _, ha, hc⟩
  · rcases mergeEvent_error_inv event _ hm with he | he <;> simp at he
  · obtain ⟨mm, hmm⟩ := add_defaults_error_inv m _ ha
    simp at hmm
  · rcases check_valid_error_cases s _ hc with h1 | h1 | ⟨v, h1⟩ | h1
    · simp at h1
    · simp at h1
    · have h2 : "WithDatabase property \"" ++ v ++ "\" is not a boolean" =
          "Port is required to be an integer in Database" := by
        injection h1 with h3
        exact h3.symm
      exact wd_msg_ne v _ (by decide) h2
    · rcases db_check_error_cases s _ h1 with g | g | ⟨g, _⟩ | g | g | g | g <;> simp at g

/-- Witness for the amended C8: the theorem applied at a concrete event. -/
theorem port_integer_valueerror_unreachable_witness :
    parse evStrPort ≠ .error (.valueError "Port is required to be an integer in Database") :=
  port_integer_valueerror_unreachable evStrPort

/-- C10: whenever the merged event has a dict `Database` value without
`Port`, `add_defaults` inserts `Port = 5432` before validation runs, and
consequently no event whatsoever can make `PostgresDBUser.__init__` raise
the `Port is required in Database` error — that branch is unreachable. -/
theorem port_default_insertion_and_unreachable_branch :
    (∀ (s db : Fields), dget s "Database" = some (.vDict db) →
       dmem db "Port" = false →
       ∃ s₁, add_defaults s = .ok s₁ ∧
         dget s₁ "Database" = some (.vDict (dset db "Port" (.vInt 5432)))) ∧
    (∀ event : Fields,
      parse event ≠ .error (.valueError "Port is required in Database")) := by
  constructor
  · intro s db hdb hnp
    rw [add_defaults_db_no_port s db hdb hnp]
    by_cases hw : dmem (dset s "Database" (.vDict (dset db "Port" (.vInt 5432)))) "WithDatabase" = true
    · rw [if_pos hw]
      exact ⟨_, rfl, dget_dset_eq s "Database" _⟩
    · rw [if_neg hw]
      refine ⟨_, rfl, ?_⟩
      rw [dget_dset_ne _ "WithDatabase" "Database" _ (by decide)]
      exact dget_dset_eq s "Database" _
  · intro event h
    rcases parse_error_inv event _ h with hm | ⟨m, _, ha⟩ | ⟨m, s, _, ha, hc⟩
    · rcases mergeEvent_error_inv event _ hm with he | he <;> simp at he
    · obtain ⟨mm, hmm⟩ := add_defaults_error_inv m _ ha
      simp at hmm
    · rcases check_valid_error_cases s _ hc with h1 | h1 | ⟨v, h1⟩ | h1
      · simp at h1
      · simp at h1
      · have h2 : "WithDatabase property \"" ++ v ++ "\" is not a boolean" =
            "Port is required in Database" := by
          injection h1 with h3
          exact h3.symm
        exact wd_msg_ne v _ (by decide) h2
      · rcases db_check_error_cases s _ h1 with g | g | ⟨g, db', hdb', hnp'⟩ | g | g | g | g
        · simp at g
        · simp at g
        · have hport := add_defaults_port m s ha db' hdb'
          rw [hport] at hnp'
          cases hnp'
        · simp at g
        · simp at g
        · simp at g
        · simp at g

/-- Witness for C10: the default insertion on a concrete dict and the
unreachable branch on a concrete event. -/
theorem port_default_insertion_and_unreachable_branch_witness :
    (∃ s₁, add_defaults [("Database", Val.vDict [("Host", Val.vStr "db1")])] = .ok s₁ ∧
       dget s₁ "Database" =
         some (.vDict (dset [("Host", Val.vStr "db1")] "Port" (.vInt 5432)))) ∧
    parse evNoHost ≠ .error (.valueError "Port is required in Database") :=
  ⟨port_default_insertion_and_unreachable_branch.1
      [("Database", Val.vDict [("Host", Val.vStr "db1")])] [("Host", Val.vStr "db1")] rfl rfl,
   port_default_insertion_and_unreachable_branch.2 evNoHost⟩

/-- C9: an event whose `WithDatabase` lowercases to `true` without being
exactly the lowercase string `true` passes validation, yet `with_database`
(a case-sensitive `== "true"` comparison on the stored value) evaluates to
false, so the minted identity uses the non-database `postgresql://` format. -/
theorem withdatabase_true_case_sensitivity
    (event s : Fields) (w : String)
    (hp : parse event = .ok s)
    (hw : dget s "WithDatabase" = some (.vStr w))
    (_hlow : pyLower w = "true") (hne : w ≠ "true") :
    with_database s = .ok false ∧
    ∃ hv pv uv : Val, host s = .ok hv ∧ port s = .ok pv ∧ user s = .ok uv ∧
      url s = .ok ("postgresql://" ++ str_of hv ++ ":" ++ str_of pv ++
        "?user=" ++ str_of uv) := by
  obtain ⟨m, _, ha, hc⟩ := parse_ok_inv event s hp
  obtain ⟨b, hv, pv, uv, hwd, hh, hpo, hu, hurl⟩ :=
    url_components s (add_defaults_wd m s ha) hc
  have hbe : (w == "true") = false := beq_eq_false_iff_ne.mpr hne
  have hwdf : with_database s = .ok false := by
    unfold with_database
    rw [hw]
    dsimp only
    rw [hbe]
  have hb : b = false := by
    have h2 : (Except.ok b : Except PyErr Bool) = .ok false := hwd.symm.trans hwdf
    injection h2
  subst hb
  refine ⟨hwdf, hv, pv, uv, hh, hpo, hu, ?_⟩
  rw [hurl]
  rfl

/-- Witness for C9 at the concrete value `True`: validation passed (the
parsed dict is `sTrueCap`), yet the identity is the `postgresql://` form. -/
theorem withdatabase_true_case_sensitivity_witness :
    with_database sTrueCap = .ok false ∧
    ∃ hv pv uv : Val, host sTrueCap = .ok hv ∧ port sTrueCap = .ok pv ∧
      user sTrueCap = .ok uv ∧
      url sTrueCap = .ok ("postgresql://" ++ str_of hv ++ ":" ++ str_of pv ++
        "?user=" ++ str_of uv) :=
  withdatabase_true_case_sensitivity evTrueCap sTrueCap "True" rfl rfl rfl (by decide)

end CfnDbUser
